import Mathlib

/-!
Shallow embedding of the `httpserver` package of teknogeek/ssrf-sheriff:
the server lifecycle handle (`Handle` with `Start`/`Shutdown`/`Addr`),
the readiness prober (`waitUntilAvailable`, `wrapNetErr`) and the
keep-alive listener wrapper (`tcpKeepAliveListener`, `DefaultListenFunc`).

Go `error` values are modelled by `Option Err` (`none` = nil).  Sentinel
errors compared by identity in the source (`http.ErrServerClosed`,
`context.DeadlineExceeded`) are dedicated constructors.  External
collaborators (the dialer, the net.Conn, net.Listen, http.Server.Serve,
http.Server.Shutdown) are modelled as explicit environment inputs that
supply the outcome of each external call.
-/

namespace SSRFSheriff

/-- Model of Go `error` values distinguishable by the `httpserver` package.
`serverClosed` is `http.ErrServerClosed`, `deadlineExceeded` is
`context.DeadlineExceeded`, `alreadyRunning` is the error built by
`errors.New("server is already running")`, `wrapped msg inner` is the
result of `fmt.Errorf("%s: %v", msg, inner)`, `netError t tag` is an
error implementing `net.Error` whose `Timeout()` returns `t`, and
`other tag` is any further error value from the environment. -/
inductive Err where
  | serverClosed : Err
  | deadlineExceeded : Err
  | alreadyRunning : Err
  | wrapped (msg : String) (inner : Err) : Err
  | netError (isTimeout : Bool) (tag : String) : Err
  | other (tag : String) : Err
deriving DecidableEq, Repr

/-- Whether the error is a `net.Error` whose `Timeout()` reports true.
In Go, `context.DeadlineExceeded` itself implements `net.Error` with
`Timeout() = true`; the plain sentinel errors and `fmt.Errorf` results
do not implement `net.Error`. -/
def Err.timeout : Err → Bool
  | .netError t _ => t
  | .deadlineExceeded => true
  | _ => false

/-- Embedding of `wrapNetErr` (part_002 lines 59-73): similar to
`fmt.Errorf` except `net.Error` timeouts are translated to
`context.DeadlineExceeded`.  The `msg` argument stands for the message
after `fmt.Sprintf` formatting of the varargs. -/
def wrapNetErr (err : Option Err) (msg : String) : Option Err :=
  match err with
  | none => none
  | some e =>
    if e.timeout then some Err.deadlineExceeded
    else some (Err.wrapped msg e)

/-- Model of a `context.Context` as the prober observes it: an optional
deadline (`ctx.Deadline()`), and whether the context is cancellable at
all (a cancellable but deadline-free context has `deadline = none`). -/
structure Ctx where
  deadline : Option Nat
  cancellable : Bool
deriving DecidableEq, Repr

/-- Behaviour of the `net.Conn` obtained from a successful dial: the
outcome of `SetDeadline`, of the single `Write` of the probe line, and
of the single one-byte `Read`. -/
structure ConnBehavior where
  setDeadlineErr : Option Err
  writeErr : Option Err
  readErr : Option Err
deriving DecidableEq, Repr

/-- Environment for the prober: the injected dialer.  `dial ctx addr`
is the outcome of `d.DialContext(ctx, "tcp", addr)`; on success it
yields the connection's subsequent behaviour.  Only the dial step
receives the context. -/
structure ProbeEnv where
  dial : Ctx → String → Except Err ConnBehavior

/-- The invalid HTTP request line sent by the prober
(`_invalidHTTPRequestLine` in the source). -/
def invalidHTTPRequestLine : String := "INVALID\n\n"

/-- Observable outcome of one run of `waitUntilAvailable`: the returned
error (`none` = success) together with the events of the run — whether
the dial succeeded, whether `SetDeadline` was invoked on the socket,
what was successfully written, whether the one-byte read succeeded, and
whether the connection was closed before returning. -/
structure ProbeOutcome where
  result : Option Err
  dialOk : Bool
  deadlineSet : Bool
  written : Option String
  readOk : Bool
  connClosed : Bool
deriving DecidableEq, Repr

/-- The write/read tail of `waitUntilAvailable` (part_002 lines 43-54),
after the dial succeeded and the deadline (if any) was applied.  The
deferred `conn.Close()` runs on every path, so `connClosed` is true
throughout. -/
def probeWriteRead (conn : ConnBehavior) (deadlineSet : Bool) : ProbeOutcome :=
  match conn.writeErr with
  | some e =>
    { result := wrapNetErr (some e) "failed to write request to server"
      dialOk := true, deadlineSet := deadlineSet
      written := none, readOk := false, connClosed := true }
  | none =>
    match conn.readErr with
    | some e =>
      { result := wrapNetErr (some e) "failed to read response from server"
        dialOk := true, deadlineSet := deadlineSet
        written := some invalidHTTPRequestLine, readOk := false, connClosed := true }
    | none =>
      { result := none
        dialOk := true, deadlineSet := deadlineSet
        written := some invalidHTTPRequestLine, readOk := true, connClosed := true }

/-- Embedding of `waitUntilAvailable` (part_002 lines 27-55): dial the
server, apply the caller's deadline (when the context carries one) to
the connected socket, write the invalid request line, read one byte.
The connection is closed (deferred `conn.Close()`) on every path after
a successful dial. -/
def waitUntilAvailable (ctx : Ctx) (d : ProbeEnv) (addr : String) : ProbeOutcome :=
  match d.dial ctx addr with
  | .error e =>
    { result := wrapNetErr (some e) ("failed to dial to \"" ++ addr ++ "\"")
      dialOk := false, deadlineSet := false
      written := none, readOk := false, connClosed := false }
  | .ok conn =>
    match ctx.deadline with
    | some dl =>
      match conn.setDeadlineErr with
      | some e =>
        { result := some (Err.wrapped
            ("failed to set connection deadline to " ++ toString dl) e)
          dialOk := true, deadlineSet := true
          written := none, readOk := false, connClosed := true }
      | none => probeWriteRead conn true
    | none => probeWriteRead conn false

/-- A bound `*net.TCPListener`, identified by its bound address. -/
structure TCPListener where
  addr : String
deriving DecidableEq, Repr

/-- A `net.Listener` as the package sees it: either a raw TCP listener,
a non-TCP listener, or a TCP listener wrapped by the keep-alive
decorator (part_003). -/
inductive NetListener where
  | tcp (t : TCPListener) : NetListener
  | nonTCP (tag : String) (addr : String) : NetListener
  | keepAliveWrap (t : TCPListener) : NetListener
deriving DecidableEq, Repr

/-- The address the listener is bound on (`ln.Addr()`). -/
def NetListener.addrOf : NetListener → String
  | .tcp t => t.addr
  | .nonTCP _ a => a
  | .keepAliveWrap t => t.addr

/-- A `*net.TCPConn` as the wrapper observes it: its keep-alive flag
and keep-alive period (a Go `time.Duration` in nanoseconds). -/
structure TCPConn where
  keepAlive : Bool
  keepAlivePeriod : Nat
deriving DecidableEq, Repr

/-- One Go `time.Minute` in nanoseconds. -/
def timeMinute : Nat := 60000000000

/-- Embedding of `tcpKeepAliveListener` (part_003): a decorator around
a `*net.TCPListener`. -/
structure tcpKeepAliveListener where
  underlying : TCPListener
deriving DecidableEq, Repr

/-- Embedding of `tcpKeepAliveListener.Accept` (part_003 lines 18-26):
`acceptTCP` is the outcome of the underlying `ln.AcceptTCP()`.  On
success the accepted connection is returned with keep-alive enabled and
the period set to 3 minutes; an accept error is returned unchanged. -/
def tcpKeepAliveListener.Accept (_ln : tcpKeepAliveListener)
    (acceptTCP : Except Err TCPConn) : Except Err TCPConn :=
  match acceptTCP with
  | .error e => .error e
  | .ok tc => .ok { tc with keepAlive := true, keepAlivePeriod := 3 * timeMinute }

/-- Embedding of `DefaultListenFunc` (part_002 lines 103-113):
`listenResult` is the outcome of `net.Listen(network, address)`.  A
`*net.TCPListener` is wrapped in `tcpKeepAliveListener`; any other
listener, and any error, passes through unchanged. -/
def DefaultListenFunc (listenResult : Except Err NetListener) : Except Err NetListener :=
  match listenResult with
  | .error e => .error e
  | .ok (.tcp t) => .ok (.keepAliveWrap t)
  | .ok l => .ok l

/-- State of the `errCh` channel (`make(chan error, 1)`): `pending e`
means the serve goroutine will deliver the terminal error `e` (its one
buffered send, after which it closes the channel), so a receive yields
`e` and leaves the channel closed and empty; `drained` means the one
value was already consumed and the channel is closed, so a receive
yields the zero value `nil` immediately. -/
inductive ChanState where
  | pending (e : Err) : ChanState
  | drained : ChanState
deriving DecidableEq, Repr

/-- Embedding of the mutable state of `Handle` (part_002 lines 128-144):
the user server's configured bind address (`h.srv.Addr`), the recorded
listener (`h.ln`, nil until `Start` succeeds), and the completion
channel (`h.errCh`, nil until `Start` succeeds; a receive from a nil
channel blocks forever).  The `listenFunc`/`newDialerFunc` factory
fields are modelled as explicit inputs to `Start`. -/
structure Handle where
  srvAddr : String
  ln : Option NetListener
  errCh : Option ChanState
deriving DecidableEq, Repr

/-- Embedding of `NewHandle` (part_002 lines 156-168), with no options:
listener and completion channel are absent. -/
def NewHandle (srvAddr : String) : Handle :=
  { srvAddr := srvAddr, ln := none, errCh := none }

/-- Embedding of `Handle.Addr` (part_002 lines 175-180): the bound
address of the recorded listener, or `none` if the server has not been
started. -/
def Handle.Addr (h : Handle) : Option String :=
  match h.ln with
  | none => none
  | some ln => some ln.addrOf

/-- Environment for one `Start` call: the caller's context, the
listener factory (`h.listenFunc`, applied to network and address), the
dialer built by `h.newDialerFunc()` for the readiness probe, the
terminal error the serve goroutine (`h.srv.Serve(ln)`) will deliver on
`errCh` (`http.Server.Serve` always returns a non-nil error), and
whether that value is already available at the non-blocking `select`
in the probe-failure branch. -/
structure StartEnv where
  ctx : Ctx
  listen : String → String → Except Err NetListener
  probe : ProbeEnv
  serveErr : Err
  serveDoneAtCheck : Bool

/-- Result of one `Start` call: the returned error, the handle state
after the call, and the events of the call — whether the listener
factory was invoked, whether the serve goroutine was launched, and
whether `Start` itself called `ln.Close()`. -/
structure StartResult where
  ret : Option Err
  h' : Handle
  listenAttempted : Bool
  serveLaunched : Bool
  lnClosedByStart : Bool
deriving DecidableEq, Repr

/-- Embedding of `Handle.Start` (part_002 lines 199-265).  Rejects a
handle whose listener is already set; resolves the bind address
(substituting ":0" when unset); creates the listener; launches the
serve goroutine; probes readiness.  On probe failure, a value already
available on `errCh` is preferred (the serve task's error); otherwise
the listener is closed and the probe error surfaced through
`wrapNetErr`.  Only on probe success are `errCh` and `ln` recorded. -/
def Handle.Start (h : Handle) (env : StartEnv) : StartResult :=
  match h.ln with
  | some _ =>
    { ret := some Err.alreadyRunning, h' := h
      listenAttempted := false, serveLaunched := false, lnClosedByStart := false }
  | none =>
    let addr := if h.srvAddr = "" then ":0" else h.srvAddr
    match env.listen "tcp" addr with
    | .error e =>
      { ret := some (Err.wrapped ("error starting HTTP server on \"" ++ addr ++ "\"") e)
        h' := h
        listenAttempted := true, serveLaunched := false, lnClosedByStart := false }
    | .ok ln =>
      match (waitUntilAvailable env.ctx env.probe ln.addrOf).result with
      | none =>
        { ret := none
          h' := { h with ln := some ln, errCh := some (ChanState.pending env.serveErr) }
          listenAttempted := true, serveLaunched := true, lnClosedByStart := false }
      | some pe =>
        if env.serveDoneAtCheck then
          { ret := some (Err.wrapped "error starting HTTP server" env.serveErr), h' := h
            listenAttempted := true, serveLaunched := true, lnClosedByStart := false }
        else
          { ret := wrapNetErr (some pe) "error waiting for server to start up", h' := h
            listenAttempted := true, serveLaunched := true, lnClosedByStart := true }

/-- Result of one terminating `Shutdown` call: the returned error, the
handle state after the call, and whether the call waited on (received
from) the completion channel. -/
structure ShutdownResult where
  ret : Option Err
  h' : Handle
  waited : Bool
deriving DecidableEq, Repr

/-- Embedding of `Handle.Shutdown` (part_002 lines 271-282).
`shutdownErr` is the outcome of `h.srv.Shutdown(ctx)`: a non-nil error
is returned immediately without touching `errCh`.  Otherwise the call
receives from `errCh`: from an absent (nil) channel the receive blocks
forever (result `none`); from `pending e` it receives `e` (the channel
then being drained); from `drained` it receives the zero value `nil`.
A received value other than `http.ErrServerClosed` is returned as-is;
the sentinel is suppressed and the listener cleared. -/
def Handle.Shutdown (h : Handle) (shutdownErr : Option Err) : Option ShutdownResult :=
  match shutdownErr with
  | some e => some { ret := some e, h' := h, waited := false }
  | none =>
    match h.errCh with
    | none => none
    | some st =>
      let received : Option Err :=
        match st with
        | .pending e => some e
        | .drained => none
      let h1 : Handle := { h with errCh := some ChanState.drained }
      if received ≠ some Err.serverClosed then
        some { ret := received, h' := h1, waited := true }
      else
        some { ret := none, h' := { h1 with ln := none }, waited := true }

/-- One lifecycle call on a handle: a `Start` with its environment, or
a `Shutdown` with the outcome of the underlying `srv.Shutdown(ctx)`. -/
inductive Op where
  | start (env : StartEnv) : Op
  | shutdown (shutdownErr : Option Err) : Op

/-- The spec's abstract lifecycle state machine (spec section 4.3,
"Idle → Running → Idle"): `running` after a `Start` call returns
success, `idle` initially and after a `Shutdown` call returns success;
a call that returns an error leaves the abstract state unchanged. -/
inductive SpecState where
  | idle : SpecState
  | running : SpecState
deriving DecidableEq, Repr

/-- One step of the lifecycle: runs the call on the handle and updates
the abstract state from the call's return value.  `none` means the call
blocked forever (a `Shutdown` receiving from a nil channel). -/
def step (h : Handle) (s : SpecState) (op : Op) : Option (Handle × SpecState) :=
  match op with
  | .start env =>
    let r := h.Start env
    some (r.h', if r.ret = none then SpecState.running else s)
  | .shutdown e =>
    match h.Shutdown e with
    | none => none
    | some r => some (r.h', if r.ret = none then SpecState.idle else s)

/-- Runs a sequence of lifecycle calls; `none` as soon as one blocks. -/
def run (h : Handle) (s : SpecState) : List Op → Option (Handle × SpecState)
  | [] => some (h, s)
  | op :: ops =>
    match step h s op with
    | none => none
    | some (h', s') => run h' s' ops

/-- A call is safe when it is not a waiting `Shutdown` issued against a
handle whose completion channel is already drained while a listener is
still recorded (the pattern of re-receiving from the closed channel
after a failed `Shutdown`). -/
def Op.safe (h : Handle) : Op → Bool
  | .start _ => true
  | .shutdown e => e.isSome || !(h.errCh == some ChanState.drained) || h.ln == none

/-- Every call of the sequence is safe in the state where it runs. -/
def SafeRun (h : Handle) (s : SpecState) : List Op → Bool
  | [] => true
  | op :: ops =>
    Op.safe h op &&
      match step h s op with
      | none => true
      | some (h', s') => SafeRun h' s' ops

/-- The claimed coupling invariant: the listener field is non-absent
exactly when the abstract state is `running`. -/
def lnInv (h : Handle) (s : SpecState) : Prop :=
  h.ln.isSome = true ↔ s = SpecState.running

theorem wrapNetErr_ne_none (e : Err) (msg : String) :
    ¬(wrapNetErr (some e) msg = none) := by
  by_cases ht : e.timeout <;> simp [wrapNetErr, ht]

theorem step_preserves_lnInv (h : Handle) (s : SpecState) (op : Op)
    (hsafe : Op.safe h op = true) (hinv : lnInv h s) :
    ∀ h' s', step h s op = some (h', s') → lnInv h' s' := by
  intro h' s' hstep
  cases op with
  | start env =>
    rcases hln : h.ln with _ | l
    · rcases hlisten : env.listen "tcp" (if h.srvAddr = "" then ":0" else h.srvAddr)
        with e | ln
      · simp [step, Handle.Start, hln, hlisten] at hstep
        obtain ⟨rfl, rfl⟩ := hstep
        simpa [lnInv, hln] using hinv
      · rcases hprobe : (waitUntilAvailable env.ctx env.probe ln.addrOf).result
          with _ | pe
        · simp [step, Handle.Start, hln, hlisten, hprobe] at hstep
          obtain ⟨rfl, rfl⟩ := hstep
          simp [lnInv]
        · by_cases hdone : env.serveDoneAtCheck
          · simp [step, Handle.Start, hln, hlisten, hprobe, hdone] at hstep
            obtain ⟨rfl, rfl⟩ := hstep
            simpa [lnInv, hln] using hinv
          · simp [step, Handle.Start, hln, hlisten, hprobe, hdone,
              wrapNetErr_ne_none] at hstep
            obtain ⟨rfl, rfl⟩ := hstep
            simpa [lnInv, hln] using hinv
    · simp [step, Handle.Start, hln] at hstep
      obtain ⟨rfl, rfl⟩ := hstep
      simpa [lnInv, hln] using hinv
  | shutdown e =>
    cases e with
    | some err =>
      simp [step, Handle.Shutdown] at hstep
      obtain ⟨rfl, rfl⟩ := hstep
      exact hinv
    | none =>
      rcases hch : h.errCh with _ | st
      · simp [step, Handle.Shutdown, hch] at hstep
      · cases st with
        | pending pe =>
          by_cases hpe : pe = Err.serverClosed
          · subst hpe
            simp [step, Handle.Shutdown, hch] at hstep
            obtain ⟨rfl, rfl⟩ := hstep
            simp [lnInv]
          · simp [step, Handle.Shutdown, hch, hpe] at hstep
            obtain ⟨rfl, rfl⟩ := hstep
            simpa [lnInv] using hinv
        | drained =>
          have hlnnone : h.ln = none := by
            simp [Op.safe, hch] at hsafe
            exact hsafe
          simp [step, Handle.Shutdown, hch] at hstep
          obtain ⟨rfl, rfl⟩ := hstep
          simp [lnInv, hlnnone]

theorem run_preserves_lnInv : ∀ (ops : List Op) (h : Handle) (s : SpecState),
    SafeRun h s ops = true → lnInv h s →
    ∀ h' s', run h s ops = some (h', s') → lnInv h' s' := by
  intro ops
  induction ops with
  | nil =>
    intro h s _ hinv h' s' hrun
    simp only [run, Option.some.injEq, Prod.mk.injEq] at hrun
    obtain ⟨rfl, rfl⟩ := hrun
    exact hinv
  | cons op ops ih =>
    intro h s hsafe hinv h' s' hrun
    simp only [run] at hrun
    rw [SafeRun, Bool.and_eq_true] at hsafe
    rcases hstep : step h s op with _ | ⟨h1, s1⟩
    · rw [hstep] at hrun
      exact absurd hrun (by simp)
    · rw [hstep] at hrun
      have hinv1 := step_preserves_lnInv h s op hsafe.1 hinv h1 s1 hstep
      have hsafe1 : SafeRun h1 s1 ops = true := by
        have h2 := hsafe.2
        rw [hstep] at h2
        exact h2
      exact ih h1 s1 hsafe1 hinv1 h' s' hrun

/-- Claim C2: `Shutdown`, when the underlying server's graceful shutdown
returns a non-absent error, returns that error immediately without
waiting on the completion signal (the handle, including its channel, is
untouched); otherwise it waits on the completion signal, treats the
sentinel "server closed" terminal value as success and suppresses it
(clearing the listener), and surfaces any other terminal value as
failure without clearing the listener. -/
theorem C2_shutdown_paths (h : Handle) (e se : Err) :
    (h.Shutdown (some e) = some { ret := some e, h' := h, waited := false }) ∧
    (h.errCh = some (ChanState.pending Err.serverClosed) →
      h.Shutdown none =
        some { ret := none
               h' := { h with ln := none, errCh := some ChanState.drained }
               waited := true }) ∧
    (h.errCh = some (ChanState.pending se) → se ≠ Err.serverClosed →
      h.Shutdown none =
        some { ret := some se
               h' := { h with errCh := some ChanState.drained }
               waited := true }) := by
  refine ⟨rfl, ?_, ?_⟩
  · intro hch
    simp [Handle.Shutdown, hch]
  · intro hch hse
    simp [Handle.Shutdown, hch, hse]

theorem C2_witness :
    Handle.Shutdown
        { srvAddr := "", ln := some (NetListener.tcp ⟨"127.0.0.1:9000"⟩),
          errCh := some (ChanState.pending Err.serverClosed) } none =
      some { ret := none
             h' := { srvAddr := "", ln := none, errCh := some ChanState.drained }
             waited := true } :=
  (C2_shutdown_paths
      { srvAddr := "", ln := some (NetListener.tcp ⟨"127.0.0.1:9000"⟩),
        errCh := some (ChanState.pending Err.serverClosed) }
      (Err.other "x") (Err.other "y")).2.1 rfl

/-- Claim C6: calling `Start` on a handle whose listener field is
already set fails with the "already running" error and performs no side
effects: the listener factory is not invoked, no serve goroutine is
launched, nothing is closed, and the handle is unchanged. -/
theorem C6_start_already_running (h : Handle) (env : StartEnv) (l : NetListener)
    (hln : h.ln = some l) :
    h.Start env = { ret := some Err.alreadyRunning, h' := h
                    listenAttempted := false, serveLaunched := false
                    lnClosedByStart := false } := by
  simp [Handle.Start, hln]

theorem C6_witness :
    Handle.Start
        { srvAddr := ":8000", ln := some (NetListener.tcp ⟨"127.0.0.1:8000"⟩),
          errCh := some (ChanState.pending Err.serverClosed) }
        { ctx := ⟨none, false⟩
          listen := fun _ _ => Except.ok (NetListener.tcp ⟨"127.0.0.1:8000"⟩)
          probe := { dial := fun _ _ => Except.error (Err.other "refused") }
          serveErr := Err.serverClosed
          serveDoneAtCheck := false } =
      { ret := some Err.alreadyRunning
        h' := { srvAddr := ":8000", ln := some (NetListener.tcp ⟨"127.0.0.1:8000"⟩),
                errCh := some (ChanState.pending Err.serverClosed) }
        listenAttempted := false, serveLaunched := false, lnClosedByStart := false } :=
  C6_start_already_running
    { srvAddr := ":8000", ln := some (NetListener.tcp ⟨"127.0.0.1:8000"⟩),
      errCh := some (ChanState.pending Err.serverClosed) }
    { ctx := ⟨none, false⟩
      listen := fun _ _ => Except.ok (NetListener.tcp ⟨"127.0.0.1:8000"⟩)
      probe := { dial := fun _ _ => Except.error (Err.other "refused") }
      serveErr := Err.serverClosed
      serveDoneAtCheck := false }
    (NetListener.tcp ⟨"127.0.0.1:8000"⟩) rfl

/-- Claim C7: the keep-alive wrapper's `Accept` returns every accepted
connection with keep-alive enabled and the period set to the fixed
constant of 3 minutes, and propagates the underlying accept error
unchanged; `DefaultListenFunc` applies the wrapper only to TCP
listeners, so non-TCP listeners (and listen errors) pass through
unwrapped. -/
theorem C7_keepalive_wrapper (ln : tcpKeepAliveListener) (tc : TCPConn) (e : Err)
    (t : TCPListener) (tag addr : String) :
    (ln.Accept (.ok tc) =
      .ok { tc with keepAlive := true, keepAlivePeriod := 3 * timeMinute }) ∧
    (ln.Accept (.error e) = .error e) ∧
    (DefaultListenFunc (.ok (NetListener.tcp t)) = .ok (NetListener.keepAliveWrap t)) ∧
    (DefaultListenFunc (.ok (NetListener.nonTCP tag addr)) =
      .ok (NetListener.nonTCP tag addr)) ∧
    (DefaultListenFunc (.error e) = .error e) :=
  ⟨rfl, rfl, rfl, rfl, rfl⟩

/-- Claim C9: `Shutdown` has the implicit precondition that a `Start`
succeeded earlier: on a freshly constructed handle the completion
channel field was never set, so the receive is from a nil channel and
can never complete — `Shutdown` never returns (modelled as `none`) even
though the handle is idle (no listener, `Addr` absent). -/
theorem C9_shutdown_fresh_blocks (a : String) :
    (NewHandle a).ln = none ∧ (NewHandle a).Addr = none ∧
    (NewHandle a).Shutdown none = none :=
  ⟨rfl, rfl, rfl⟩

/-- Claim C3: when the readiness prober fails during `Start` (after the
listener was created): if a value is already available on the completion
channel at the non-blocking select, `Start` surfaces the serve task's
error (not the prober's) and does not itself close the listener; if no
value is available, `Start` closes the listener and surfaces the
prober's failure (through `wrapNetErr`).  In neither failure branch are
the handle's listener or completion-channel fields recorded (the handle
is returned unchanged). -/
theorem C3_start_probe_failure (h : Handle) (env : StartEnv) (ln : NetListener)
    (pe : Err) (hidle : h.ln = none)
    (hlisten : env.listen "tcp" (if h.srvAddr = "" then ":0" else h.srvAddr) =
      Except.ok ln)
    (hprobe : (waitUntilAvailable env.ctx env.probe ln.addrOf).result = some pe) :
    (env.serveDoneAtCheck = true →
      h.Start env =
        { ret := some (Err.wrapped "error starting HTTP server" env.serveErr)
          h' := h
          listenAttempted := true, serveLaunched := true, lnClosedByStart := false }) ∧
    (env.serveDoneAtCheck = false →
      h.Start env =
        { ret := wrapNetErr (some pe) "error waiting for server to start up"
          h' := h
          listenAttempted := true, serveLaunched := true, lnClosedByStart := true }) := by
  constructor <;> intro hdone <;> simp [Handle.Start, hidle, hlisten, hprobe, hdone]

theorem C3_witness :
    Handle.Start (NewHandle "")
        { ctx := ⟨none, false⟩
          listen := fun _ _ => Except.ok (NetListener.tcp ⟨"127.0.0.1:9001"⟩)
          probe := { dial := fun _ _ => Except.error (Err.other "connection refused") }
          serveErr := Err.other "listen tcp :9001: address already in use"
          serveDoneAtCheck := true } =
      { ret := some (Err.wrapped "error starting HTTP server"
          (Err.other "listen tcp :9001: address already in use"))
        h' := NewHandle ""
        listenAttempted := true, serveLaunched := true, lnClosedByStart := false } :=
  (C3_start_probe_failure (NewHandle "")
      { ctx := ⟨none, false⟩
        listen := fun _ _ => Except.ok (NetListener.tcp ⟨"127.0.0.1:9001"⟩)
        probe := { dial := fun _ _ => Except.error (Err.other "connection refused") }
        serveErr := Err.other "listen tcp :9001: address already in use"
        serveDoneAtCheck := true }
      (NetListener.tcp ⟨"127.0.0.1:9001"⟩)
      (Err.wrapped "failed to dial to \"127.0.0.1:9001\"" (Err.other "connection refused"))
      rfl rfl rfl).1 rfl

/-- Claim C4: for every error produced by the prober's dial, write or
read step, a network timeout is translated by `wrapNetErr` into the
distinguished `context.DeadlineExceeded` outcome regardless of which of
the three steps timed out, while a non-timeout error is wrapped with
the step's descriptive message instead. -/
theorem C4_timeout_normalization (ctx : Ctx) (d : ProbeEnv) (c : ConnBehavior)
    (e : Err) (addr : String) :
    (e.timeout = true →
      ((d.dial ctx addr = Except.error e →
         (waitUntilAvailable ctx d addr).result = some Err.deadlineExceeded) ∧
       (d.dial ctx addr = Except.ok c → c.setDeadlineErr = none →
         c.writeErr = some e →
         (waitUntilAvailable ctx d addr).result = some Err.deadlineExceeded) ∧
       (d.dial ctx addr = Except.ok c → c.setDeadlineErr = none →
         c.writeErr = none → c.readErr = some e →
         (waitUntilAvailable ctx d addr).result = some Err.deadlineExceeded))) ∧
    (e.timeout = false →
      ((d.dial ctx addr = Except.error e →
         (waitUntilAvailable ctx d addr).result =
           some (Err.wrapped ("failed to dial to \"" ++ addr ++ "\"") e)) ∧
       (d.dial ctx addr = Except.ok c → c.setDeadlineErr = none →
         c.writeErr = some e →
         (waitUntilAvailable ctx d addr).result =
           some (Err.wrapped "failed to write request to server" e)) ∧
       (d.dial ctx addr = Except.ok c → c.setDeadlineErr = none →
         c.writeErr = none → c.readErr = some e →
         (waitUntilAvailable ctx d addr).result =
           some (Err.wrapped "failed to read response from server" e)))) := by
  constructor <;> intro ht <;> refine ⟨?_, ?_, ?_⟩
  · intro hdial
    simp [waitUntilAvailable, hdial, wrapNetErr, ht]
  · intro hdial hsd hw
    rcases hdl : ctx.deadline with _ | dl <;>
      simp [waitUntilAvailable, hdial, hdl, hsd, probeWriteRead, hw, wrapNetErr, ht]
  · intro hdial hsd hw hr
    rcases hdl : ctx.deadline with _ | dl <;>
      simp [waitUntilAvailable, hdial, hdl, hsd, probeWriteRead, hw, hr, wrapNetErr, ht]
  · intro hdial
    simp [waitUntilAvailable, hdial, wrapNetErr, ht]
  · intro hdial hsd hw
    rcases hdl : ctx.deadline with _ | dl <;>
      simp [waitUntilAvailable, hdial, hdl, hsd, probeWriteRead, hw, wrapNetErr, ht]
  · intro hdial hsd hw hr
    rcases hdl : ctx.deadline with _ | dl <;>
      simp [waitUntilAvailable, hdial, hdl, hsd, probeWriteRead, hw, hr, wrapNetErr, ht]

theorem C4_witness :
    (waitUntilAvailable ⟨some 5, false⟩
        { dial := fun _ _ =>
            Except.ok { setDeadlineErr := none, writeErr := none,
                        readErr := some (Err.netError true "i/o timeout") } }
        "127.0.0.1:9002").result = some Err.deadlineExceeded :=
  ((C4_timeout_normalization ⟨some 5, false⟩
      { dial := fun _ _ =>
          Except.ok { setDeadlineErr := none, writeErr := none,
                      readErr := some (Err.netError true "i/o timeout") } }
      { setDeadlineErr := none, writeErr := none,
        readErr := some (Err.netError true "i/o timeout") }
      (Err.netError true "i/o timeout")
      "127.0.0.1:9002").1 rfl).2.2 rfl rfl rfl rfl

theorem probeWriteRead_spec (conn : ConnBehavior) (b : Bool) :
    ((probeWriteRead conn b).result = none ↔
      ((probeWriteRead conn b).dialOk = true ∧
       (probeWriteRead conn b).written = some invalidHTTPRequestLine ∧
       (probeWriteRead conn b).readOk = true)) ∧
    (probeWriteRead conn b).dialOk = true ∧
    (probeWriteRead conn b).connClosed = true ∧
    (probeWriteRead conn b).deadlineSet = b := by
  rcases hw : conn.writeErr with _ | we
  · rcases hr : conn.readErr with _ | re
    · simp [probeWriteRead, hw, hr]
    · by_cases ht : re.timeout <;>
        simp [probeWriteRead, hw, hr, wrapNetErr, ht]
  · by_cases ht : we.timeout <;>
      simp [probeWriteRead, hw, wrapNetErr, ht]

/-- Claim C5: the readiness prober returns success exactly when the
dial succeeds, the invalid request line is written, and the single
response byte is read — an error in every other case — and whenever
the dial succeeded, the connection is closed before the prober returns,
on both the success and the failure paths. -/
theorem C5_probe_success_iff (ctx : Ctx) (d : ProbeEnv) (addr : String) :
    ((waitUntilAvailable ctx d addr).result = none ↔
      ((waitUntilAvailable ctx d addr).dialOk = true ∧
       (waitUntilAvailable ctx d addr).written = some invalidHTTPRequestLine ∧
       (waitUntilAvailable ctx d addr).readOk = true)) ∧
    ((waitUntilAvailable ctx d addr).dialOk = true →
      (waitUntilAvailable ctx d addr).connClosed = true) := by
  rcases hdial : d.dial ctx addr with e | conn
  · by_cases ht : e.timeout <;>
      simp [waitUntilAvailable, hdial, wrapNetErr, ht]
  · rcases hdl : ctx.deadline with _ | dl
    · have hmain := probeWriteRead_spec conn false
      simp only [waitUntilAvailable, hdial, hdl]
      exact ⟨hmain.1, fun _ => hmain.2.2.1⟩
    · rcases hsd : conn.setDeadlineErr with _ | se
      · have hmain := probeWriteRead_spec conn true
        simp only [waitUntilAvailable, hdial, hdl, hsd]
        exact ⟨hmain.1, fun _ => hmain.2.2.1⟩
      · simp [waitUntilAvailable, hdial, hdl, hsd]

theorem C5_witness :
    (waitUntilAvailable ⟨none, false⟩
        { dial := fun _ _ =>
            Except.ok { setDeadlineErr := none, writeErr := none, readErr := none } }
        "127.0.0.1:9003").connClosed = true :=
  (C5_probe_success_iff ⟨none, false⟩
      { dial := fun _ _ =>
          Except.ok { setDeadlineErr := none, writeErr := none, readErr := none } }
      "127.0.0.1:9003").2 rfl

/-- Claim C10: the readiness prober applies a deadline to the connected
socket only when the caller's context carries one; for a context
without a deadline (even a cancellable one), the context can influence
only the dial step — two deadline-free contexts whose dial outcomes
agree produce identical probe outcomes, so the write and read steps are
not bounded by the context at all. -/
theorem C10_deadline_scope (ctx₁ ctx₂ : Ctx) (d : ProbeEnv) (addr : String)
    (h1 : ctx₁.deadline = none) :
    ((waitUntilAvailable ctx₁ d addr).deadlineSet = false) ∧
    (ctx₂.deadline = none → d.dial ctx₁ addr = d.dial ctx₂ addr →
      waitUntilAvailable ctx₁ d addr = waitUntilAvailable ctx₂ d addr) := by
  constructor
  · rcases hdial : d.dial ctx₁ addr with e | conn
    · simp [waitUntilAvailable, hdial]
    · simpa [waitUntilAvailable, hdial, h1] using (probeWriteRead_spec conn false).2.2.2
  · intro h2 hdd
    simp only [waitUntilAvailable, hdd, h1, h2]

theorem C10_witness :
    waitUntilAvailable ⟨none, false⟩
        { dial := fun _ _ =>
            Except.ok { setDeadlineErr := some (Err.other "sd"), writeErr := none,
                        readErr := none } }
        "127.0.0.1:9004" =
      waitUntilAvailable ⟨none, true⟩
        { dial := fun _ _ =>
            Except.ok { setDeadlineErr := some (Err.other "sd"), writeErr := none,
                        readErr := none } }
        "127.0.0.1:9004" :=
  (C10_deadline_scope ⟨none, false⟩ ⟨none, true⟩
      { dial := fun _ _ =>
          Except.ok { setDeadlineErr := some (Err.other "sd"), writeErr := none,
                      readErr := none } }
      "127.0.0.1:9004" rfl).2 rfl rfl

/-- Claim C8: the completion channel is written exactly once by the
serve task and then closed: a successful `Start` records the channel
with the serve task's one terminal value pending; the matching
successful `Shutdown` drains it, leaving the closed-and-empty channel;
and a second `Shutdown` on the now-idle handle never blocks forever on
the completion channel (a receive from the closed channel returns
immediately), whatever the underlying shutdown returns. -/
theorem C8_second_shutdown_no_block (h : Handle) (env : StartEnv) (e2 : Option Err)
    (hidle : h.ln = none) (hstart : (h.Start env).ret = none) :
    ((h.Start env).h'.errCh = some (ChanState.pending env.serveErr)) ∧
    (∀ r1, (h.Start env).h'.Shutdown none = some r1 → r1.ret = none →
      r1.h'.errCh = some ChanState.drained ∧ r1.h'.Shutdown e2 ≠ none) := by
  rcases hlisten : env.listen "tcp" (if h.srvAddr = "" then ":0" else h.srvAddr)
    with le | ln
  · exfalso
    simp [Handle.Start, hidle, hlisten] at hstart
  · rcases hprobe : (waitUntilAvailable env.ctx env.probe ln.addrOf).result with _ | pe
    · constructor
      · simp [Handle.Start, hidle, hlisten, hprobe]
      · intro r1 hshut hret
        by_cases hse : env.serveErr = Err.serverClosed
        · simp [Handle.Start, hidle, hlisten, hprobe, Handle.Shutdown, hse] at hshut
          obtain rfl := hshut.symm
          constructor
          · rfl
          · rcases e2 with _ | e2' <;> simp [Handle.Shutdown]
        · simp [Handle.Start, hidle, hlisten, hprobe, Handle.Shutdown, hse] at hshut
          obtain rfl := hshut.symm
          simp at hret
    · exfalso
      by_cases hdone : env.serveDoneAtCheck <;>
        simp [Handle.Start, hidle, hlisten, hprobe, hdone, wrapNetErr_ne_none] at hstart

theorem C8_witness :
    Handle.Shutdown { srvAddr := "", ln := none, errCh := some ChanState.drained }
        none ≠ none :=
  ((C8_second_shutdown_no_block (NewHandle "")
      { ctx := ⟨none, false⟩
        listen := fun _ _ => Except.ok (NetListener.tcp ⟨"127.0.0.1:9005"⟩)
        probe := { dial := fun _ _ =>
          Except.ok { setDeadlineErr := none, writeErr := none, readErr := none } }
        serveErr := Err.serverClosed
        serveDoneAtCheck := false }
      none rfl rfl).2
    { ret := none
      h' := { srvAddr := "", ln := none, errCh := some ChanState.drained }
      waited := true }
    rfl rfl).2

/-- Claim C1 (counterexample): the claimed invariant — the listener
field is non-absent iff the handle is running, across every sequence of
`Start` and `Shutdown` calls — fails on the code.  Concrete input:
start a handle successfully, then call `Shutdown` while the serve task
ended with a non-sentinel error (that `Shutdown` fails and leaves the
listener recorded but drains the completion channel), then call
`Shutdown` again: the second `Shutdown` receives the nil zero value
from the closed channel and returns success, moving the handle to the
idle state while the listener field — and hence `Addr()` — remains
non-absent. -/
theorem C1_counterexample :
    run (NewHandle "") SpecState.idle
        [Op.start
          { ctx := ⟨none, false⟩
            listen := fun _ _ => Except.ok (NetListener.tcp ⟨"127.0.0.1:8080"⟩)
            probe := { dial := fun _ _ =>
              Except.ok { setDeadlineErr := none, writeErr := none, readErr := none } }
            serveErr := Err.other "accept tcp: use of closed network connection"
            serveDoneAtCheck := false },
         Op.shutdown none, Op.shutdown none] =
      some ({ srvAddr := "", ln := some (NetListener.tcp ⟨"127.0.0.1:8080"⟩),
              errCh := some ChanState.drained }, SpecState.idle) ∧
    ¬ lnInv { srvAddr := "", ln := some (NetListener.tcp ⟨"127.0.0.1:8080"⟩),
              errCh := some ChanState.drained } SpecState.idle ∧
    Handle.Addr { srvAddr := "", ln := some (NetListener.tcp ⟨"127.0.0.1:8080"⟩),
                  errCh := some ChanState.drained } = some "127.0.0.1:8080" := by
  refine ⟨rfl, ?_, rfl⟩
  simp [lnInv]

/-- Claim C1 (amended): on a freshly constructed handle `Addr()` is
absent, and the invariant "the listener field is non-absent iff the
handle is running, equivalently `Addr()` is non-absent iff the handle
is running" holds across every sequence of `Start` and `Shutdown` calls
in which no waiting `Shutdown` is issued against a handle whose
completion channel is already drained while a listener is still
recorded (the situation left behind by a `Shutdown` that surfaced a
non-sentinel serve-task error). -/
theorem C1_lnInv_amended (a : String) (ops : List Op)
    (hsafe : SafeRun (NewHandle a) SpecState.idle ops = true) :
    (NewHandle a).Addr = none ∧
    ∀ h' s', run (NewHandle a) SpecState.idle ops = some (h', s') →
      ((h'.ln.isSome = true ↔ s' = SpecState.running) ∧
       (h'.Addr.isSome = true ↔ s' = SpecState.running)) := by
  refine ⟨rfl, ?_⟩
  intro h' s' hrun
  have hinv := run_preserves_lnInv ops (NewHandle a) SpecState.idle hsafe
    (by simp [lnInv, NewHandle]) h' s' hrun
  refine ⟨hinv, ?_⟩
  have haddr : h'.Addr.isSome = h'.ln.isSome := by
    rcases hln : h'.ln with _ | l <;> simp [Handle.Addr, hln]
  rw [haddr]
  exact hinv

theorem C1_witness :
    SafeRun (NewHandle "") SpecState.idle
        [Op.start
          { ctx := ⟨none, false⟩
            listen := fun _ _ => Except.ok (NetListener.tcp ⟨"127.0.0.1:8081"⟩)
            probe := { dial := fun _ _ =>
              Except.ok { setDeadlineErr := none, writeErr := none, readErr := none } }
            serveErr := Err.serverClosed
            serveDoneAtCheck := false },
         Op.shutdown none] = true ∧
    (({ srvAddr := "", ln := none, errCh := some ChanState.drained } : Handle).ln.isSome
        = true ↔ SpecState.idle = SpecState.running) := by
  have hs : SafeRun (NewHandle "") SpecState.idle
      [Op.start
        { ctx := ⟨none, false⟩
          listen := fun _ _ => Except.ok (NetListener.tcp ⟨"127.0.0.1:8081"⟩)
          probe := { dial := fun _ _ =>
            Except.ok { setDeadlineErr := none, writeErr := none, readErr := none } }
          serveErr := Err.serverClosed
          serveDoneAtCheck := false },
       Op.shutdown none] = true := by decide
  exact ⟨hs, ((C1_lnInv_amended "" _ hs).2
    { srvAddr := "", ln := none, errCh := some ChanState.drained }
    SpecState.idle rfl).1⟩

end SSRFSheriff
